import Mathlib

/-!
Verification of the Dzukou pricing pipeline.

The repository's visible source (`pricing_pipeline.ipynb`) contains one
function, `add_product`, which maintains three CSV artifacts: an overview
catalog file (written with the cp1252 encoding), a product-to-data-file
mapping, and per-category competitor data files.  The price optimizer and
the competitor-price ingestor are outside collaborators invoked from the
notebook; they are modelled here from the specification's §4.2 and §4.3.

Prices and costs are embedded as rationals; files are embedded as explicit
state (lists of rows, and byte lists where the cp1252 encoding matters).
-/

namespace Pricing

/-! ## Rounding (spec §4.3 step 5: round-half-to-even at two decimals) -/

/-- Modelled from the spec: round-half-to-even of a rational to an integer
(spec §4.3 step 5 names this as the currency rounding mode). -/
def roundHalfToEvenInt (q : ℚ) : ℤ :=
  if q - ⌊q⌋ < 1/2 then ⌊q⌋
  else if 1/2 < q - ⌊q⌋ then ⌊q⌋ + 1
  else if ⌊q⌋ % 2 = 0 then ⌊q⌋ else ⌊q⌋ + 1

/-- Modelled from the spec: rounding to the standard two minor-unit decimal
places using round-half-to-even. -/
def round2 (q : ℚ) : ℚ := (roundHalfToEvenInt (100 * q) : ℚ) / 100

/-! ## Sorting and median -/

/-- Insert into a sorted list (ascending). -/
def insertSorted (x : ℚ) : List ℚ → List ℚ
  | [] => [x]
  | y :: ys => if x ≤ y then x :: y :: ys else y :: insertSorted x ys

/-- Insertion sort, ascending. -/
def sortAsc (l : List ℚ) : List ℚ := l.foldr insertSorted []

/-- Modelled from the spec: the median competitor price (spec §4.3 step 4;
a single observation is its own median, an even count averages the two
middle values). -/
def median (l : List ℚ) : ℚ :=
  let s := sortAsc l
  let n := s.length
  if n % 2 = 1 then s.getD (n / 2) 0
  else (s.getD (n / 2 - 1) 0 + s.getD (n / 2) 0) / 2

/-- clamp x into the interval [lo, hi]. -/
def clamp (x lo hi : ℚ) : ℚ := max lo (min x hi)

/-! ## Optimizer configuration (spec §4.3, §9: explicit thresholds) -/

/-- Modelled from the spec: the optimizer's configurable thresholds with the
default policy values named in §4.3 (minimum margin 0.10, max markup 3.0,
default markup 1.5, outlier ratios 0.1× and 10×). -/
structure OptimizerConfig where
  minMargin : ℚ
  maxMarkup : ℚ
  defaultMarkup : ℚ
  outlierLow : ℚ
  outlierHigh : ℚ

/-- The default policy of spec §4.3. -/
def defaultConfig : OptimizerConfig :=
  { minMargin := 1/10
    maxMarkup := 3
    defaultMarkup := 3/2
    outlierLow := 1/10
    outlierHigh := 10 }

/-- Modelled from the spec: §4.3 step 2 — drop observations with
non-positive price, or price below outlierLow × unit cost, or above
outlierHigh × unit cost. -/
def filterObservations (cfg : OptimizerConfig) (unitCost : ℚ) (obs : List ℚ) : List ℚ :=
  obs.filter (fun p => 0 < p ∧ cfg.outlierLow * unitCost ≤ p ∧ p ≤ cfg.outlierHigh * unitCost)

/-- A recommendation: rounded price and qualitative confidence. -/
structure Recommendation where
  price : ℚ
  confidence : String
  deriving DecidableEq, Repr

/-- Modelled from the spec: the Price Optimizer core of §4.3 (the
`price_optimizer` module invoked by the notebook is not part of the visible
source).  Steps 2–5: filter, fall back to current price or default markup
when no valid observation remains (confidence low), otherwise clamp the
median into [cost × (1 + minMargin), cost × maxMarkup] (confidence high
when at least three valid observations, else medium); finally round
half-to-even to cents. -/
def recommend (cfg : OptimizerConfig) (unitCost : ℚ) (currentPrice : Option ℚ)
    (obs : List ℚ) : Recommendation :=
  let valid := filterObservations cfg unitCost obs
  if valid.isEmpty then
    match currentPrice with
    | some cp => ⟨round2 cp, "low"⟩
    | none => ⟨round2 (unitCost * cfg.defaultMarkup), "low"⟩
  else
    let lo := unitCost * (1 + cfg.minMargin)
    let hi := unitCost * cfg.maxMarkup
    ⟨round2 (clamp (median valid) lo hi),
      if 3 ≤ valid.length then "high" else "medium"⟩

example : recommend defaultConfig 20 (some 49) [45, 50, 55] = ⟨50, "high"⟩ := by
  norm_num [recommend, filterObservations, defaultConfig, median, sortAsc, insertSorted,
    clamp, round2, roundHalfToEvenInt, List.filter]

example : recommend defaultConfig 20 none [] = ⟨30, "low"⟩ := by
  norm_num [recommend, filterObservations, defaultConfig, round2, roundHalfToEvenInt,
    List.filter]

example : filterObservations defaultConfig 20 [0, 1000, 50] = [50] := by
  norm_num [filterObservations, defaultConfig, List.filter]

/-! ## The cp1252 (Windows-1252) text encoding

The notebook persists the overview catalog with `encoding='cp1252'`
(`pd.read_csv(OVERVIEW_CSV, encoding='cp1252')` /
`df.to_csv(OVERVIEW_CSV, index=False, encoding='cp1252')`).  We embed the
codec at the level of Unicode code points and byte values: code points
0x00–0x7F and 0xA0–0xFF are identity-mapped, 27 specific code points map
into the 0x80–0x9F byte range, and every other code point is unencodable
(Python raises `UnicodeEncodeError`). -/

/-- Encode one Unicode code point to a cp1252 byte, or `none` when the
code point is not representable in cp1252. -/
def encode1252 (n : Nat) : Option Nat :=
  if n < 128 then some n
  else if 160 ≤ n ∧ n ≤ 255 then some n
  else match n with
    | 8364 => some 128   -- €
    | 8218 => some 130   -- ‚
    | 402 => some 131    -- ƒ
    | 8222 => some 132   -- „
    | 8230 => some 133   -- …
    | 8224 => some 134   -- †
    | 8225 => some 135   -- ‡
    | 710 => some 136    -- ˆ
    | 8240 => some 137   -- ‰
    | 352 => some 138    -- Š
    | 8249 => some 139   -- ‹
    | 338 => some 140    -- Œ
    | 381 => some 142    -- Ž
    | 8216 => some 145   -- left single quote
    | 8217 => some 146   -- right single quote
    | 8220 => some 147   -- left double quote
    | 8221 => some 148   -- right double quote
    | 8226 => some 149   -- •
    | 8211 => some 150   -- –
    | 8212 => some 151   -- —
    | 732 => some 152    -- ˜
    | 8482 => some 153   -- ™
    | 353 => some 154    -- š
    | 8250 => some 155   -- ›
    | 339 => some 156    -- œ
    | 382 => some 158    -- ž
    | 376 => some 159    -- Ÿ
    | _ => none

/-- Decode one cp1252 byte to a Unicode code point; bytes 0x81, 0x8D,
0x8F, 0x90 and 0x9D are undefined in cp1252. -/
def decode1252 (b : Nat) : Option Nat :=
  if b < 128 then some b
  else if 160 ≤ b ∧ b ≤ 255 then some b
  else match b with
    | 128 => some 8364
    | 130 => some 8218
    | 131 => some 402
    | 132 => some 8222
    | 133 => some 8230
    | 134 => some 8224
    | 135 => some 8225
    | 136 => some 710
    | 137 => some 8240
    | 138 => some 352
    | 139 => some 8249
    | 140 => some 338
    | 142 => some 381
    | 145 => some 8216
    | 146 => some 8217
    | 147 => some 8220
    | 148 => some 8221
    | 149 => some 8226
    | 150 => some 8211
    | 151 => some 8212
    | 152 => some 732
    | 153 => some 8482
    | 154 => some 353
    | 155 => some 8250
    | 156 => some 339
    | 158 => some 382
    | 159 => some 376
    | _ => none

/-- cp1252 decoding is a left inverse of cp1252 encoding on code points. -/
theorem decode1252_encode1252 {n b : Nat} (h : encode1252 n = some b) :
    decode1252 b = some n := by
  unfold encode1252 at h
  split at h
  · cases h
    unfold decode1252
    rw [if_pos]
    assumption
  · rename_i h1
    split at h
    · cases h
      unfold decode1252
      rw [if_neg h1, if_pos]
      assumption
    · split at h <;> cases h <;> decide

/-- Encode a string into cp1252 bytes; `none` when some character is not
representable (Python's `UnicodeEncodeError`). -/
def encodeStr (s : String) : Option (List Nat) :=
  s.data.mapM (fun c => encode1252 c.toNat)

/-- Decode cp1252 bytes back into a string; `none` on an undefined byte. -/
def decodeStr (bs : List Nat) : Option String :=
  (bs.mapM decode1252).map (fun ns => (ns.map Char.ofNat).asString)

/-- List-level round trip: decoding the bytes of an encodable character
list recovers exactly the original code points. -/
theorem mapM_decode_encode : ∀ (cs : List Char) (bs : List Nat),
    cs.mapM (fun c => encode1252 c.toNat) = some bs →
    bs.mapM decode1252 = some (cs.map Char.toNat)
  | [], bs, h => by
    simp only [List.mapM_nil, Option.pure_def, Option.some.injEq] at h
    subst h
    rfl
  | c :: cs, bs, h => by
    simp only [List.mapM_cons, Option.pure_def, Option.bind_eq_bind,
      Option.bind_eq_some, Option.some.injEq] at h
    obtain ⟨b, hb, rest, hrest, hbs⟩ := h
    have ih := mapM_decode_encode cs rest hrest
    subst hbs
    simp only [List.mapM_cons, Option.pure_def, Option.bind_eq_bind,
      Option.bind_eq_some, Option.some.injEq, List.map_cons]
    exact ⟨c.toNat, decode1252_encode1252 hb, cs.map Char.toNat, ih, rfl⟩

/-- String-level round trip: any cp1252-encodable string decodes back to
itself. -/
theorem decodeStr_encodeStr {s : String} {bs : List Nat}
    (h : encodeStr s = some bs) : decodeStr bs = some s := by
  unfold encodeStr at h
  unfold decodeStr
  rw [mapM_decode_encode s.data bs h]
  simp only [Option.map_some', Option.some.injEq, List.map_map]
  rw [Function.comp_def]
  simp only [Char.ofNat_toNat, List.map_id']
  exact String.asString_toList s

/-! ## The notebook's `add_product` and its persisted files

`add_product(name, product_id, category, current_price, unit_cost,
keywords='')` in `pricing_pipeline.ipynb`:

* reads the overview CSV (`pd.read_csv(..., encoding='cp1252')`) if it
  exists, else starts an empty table; appends one row
  `[name, product_id, current_price, unit_cost]` via `df.loc[len(df)]`;
  writes it back with cp1252 (this raises `UnicodeEncodeError` for names
  outside cp1252, in which case nothing is persisted — the overview write
  is the first side effect);
* reads the mapping CSV (`pd.read_csv`, default UTF-8 encoding) if it
  exists, else starts an empty table;
* computes the category data file path
  `product_data/{category.replace(' ','_').lower()}.csv` and, when that
  file does not exist, writes the header line
  `category,store,product_name,price,search_term,store_url\n` to it;
* appends one row `[name, product_id, data_file]` to the mapping table
  and writes it back.

Because each call re-reads the CSVs through `pd.read_csv` with default
settings, the previously stored text is subject to pandas' default
coercions before being written back:

* every string cell whose text is one of pandas' default NA values
  (`''`, `'NA'`, `'NaN'`, `'null'`, `'None'`, ...) is read as NaN, and
  `to_csv` then writes NaN back as an empty cell — so a previously stored
  name `NA` is rewritten to an empty cell by the next call;
* a string column all of whose surviving (non-NA) cells can convert to
  numbers or booleans acquires a numeric/boolean dtype, whose write-back
  formatting goes through binary floating point.  That whole-column
  regime is not reproduced by this embedding (it is floating-point
  territory); instead `couldBeCoerced` over-approximates the convertible
  cell texts, and every theorem whose conclusion depends on exact text
  preservation carries a hypothesis ruling the regime out (a column
  containing one non-NA cell that is not `couldBeCoerced` is guaranteed
  to keep plain-string object dtype, in which case pandas keeps non-NA
  cells verbatim and the embedding is exact).

Files are embedded as explicit state: the overview as rows whose name is
kept as its cp1252 byte list, the mapping as rows of strings, and data
files as an optional-valued map from path to raw contents. -/

/-- Pandas' default NA value strings (`pandas.read_csv` documentation):
cells with exactly these texts are read as NaN. -/
def naValues : List String :=
  ["", "#N/A", "#N/A N/A", "#NA", "-1.#IND", "-1.#QNAN", "-NaN", "-nan",
   "1.#IND", "1.#QNAN", "<NA>", "N/A", "NA", "NULL", "NaN", "None",
   "n/a", "nan", "null"]

/-- Over-approximation of the cell texts that pandas' whole-column type
inference can convert to a number or boolean: texts made only of digits,
signs, decimal points, exponent letters and spaces, plus infinity and
boolean spellings.  A cell text outside this set pins its column to
plain-string (object) dtype. -/
def couldBeCoerced (s : String) : Bool :=
  s.data.all (fun c =>
    c.isDigit || c = '+' || c = '-' || c = '.' || c = 'e' || c = 'E' || c = ' ') ||
  ["inf", "-inf", "+inf", "infinity", "-infinity", "+infinity", "true", "false"].contains
    ((s.data.map Char.toLower).asString)

/-- A cell text that pandas' defaults leave completely alone: not an NA
value and not convertible, so it reads back verbatim and (being non-NA
and non-convertible) pins its column to object dtype. -/
def plainCell (s : String) : Prop :=
  s ∉ naValues ∧ couldBeCoerced s = false

/-- A product-name cell as pandas reads it back: NaN or a string. -/
inductive PdName where
  | na
  | str (s : String)
  deriving DecidableEq, Repr

/-- Read one decoded cell text the way pandas does: NA values become NaN. -/
def pdCell (s : String) : PdName :=
  if s ∈ naValues then PdName.na else PdName.str s

/-- One row of the overview catalog CSV, with the product name in its
persisted cp1252-encoded form. -/
structure OverviewRow where
  nameBytes : List Nat
  productId : String
  currentPrice : ℚ
  unitCost : ℚ
  deriving DecidableEq, Repr

/-- One row of the product-to-data-file mapping CSV. -/
structure MappingRow where
  name : String
  productId : String
  dataFile : String
  deriving DecidableEq, Repr

/-- The persistent state touched by `add_product`: the overview CSV, the
mapping CSV (each `none` when the file does not exist), and the per-path
contents of category data files. -/
structure FileSystem where
  overview : Option (List OverviewRow)
  mapping : Option (List MappingRow)
  dataFiles : String → Option String

/-- The failures `add_product` can hit in this model: decoding a stored
overview byte undefined in cp1252 fails during
`pd.read_csv(..., encoding='cp1252')`, and encoding a product name
outside cp1252 fails during `df.to_csv(..., encoding='cp1252')`. -/
inductive PipelineError where
  | unicodeDecodeError
  | unicodeEncodeError
  deriving DecidableEq, Repr

/-- Pandas' read-back of one stored name cell, at the byte level: the
bytes decode (else the read raises); an NA-value text becomes NaN, which
`to_csv` later writes back as the empty cell (no bytes); any other text
is kept verbatim (in the object-dtype regime, see the section comment). -/
def pdReadName (bs : List Nat) : Option (List Nat) :=
  (decodeStr bs).map (fun s => if s ∈ naValues then [] else bs)

/-- Pandas' read-back of one string cell stored in UTF-8 (or of an id
cell): NA-value texts come back as the empty cell, everything else
verbatim in the object-dtype regime. -/
def coerceCell (s : String) : String :=
  if s ∈ naValues then "" else s

/-- Pandas' read-back of one overview row: the name cell at byte level,
the id cell as text; prices are numeric columns and round-trip. -/
def pdReadOverviewRow (r : OverviewRow) : Option OverviewRow :=
  (pdReadName r.nameBytes).map
    (fun nb => ⟨nb, coerceCell r.productId, r.currentPrice, r.unitCost⟩)

/-- Pandas' read-back of one mapping row (all three cells are strings). -/
def pdReadMappingRow (r : MappingRow) : MappingRow :=
  ⟨coerceCell r.name, coerceCell r.productId, coerceCell r.dataFile⟩

/-- Every string cell persisted in the two CSVs is a `plainCell`: each
stored name decodes from cp1252 to a non-NA, non-convertible text and
likewise for the id and mapping cells.  Under this condition pandas'
read-back is verbatim (each column is empty or holds a cell that pins it
to object dtype, and no cell is an NA value). -/
def plainState (fs : FileSystem) : Prop :=
  (∀ r ∈ fs.overview.getD [],
    ∃ s, decodeStr r.nameBytes = some s ∧ plainCell s ∧ plainCell r.productId) ∧
  (∀ r ∈ fs.mapping.getD [],
    plainCell r.name ∧ plainCell r.productId ∧ plainCell r.dataFile)

/-- A read-back name column whose cells are NaN or plain texts: such a
column is read the same way by pandas and by this embedding (any plain
cell pins the column to object dtype; an all-NaN or empty column writes
back as empty cells either way). -/
def plainColumn (cells : List PdName) : Prop :=
  ∀ c ∈ cells, c = PdName.na ∨ ∃ s, c = PdName.str s ∧ plainCell s

/-- The category data file path `f"{category.replace(' ','_').lower()}.csv"`
under `product_data/`: replacing each space with an underscore and then
lowercasing acts independently on each character. -/
def dataFileName (category : String) : String :=
  "product_data/" ++
    (category.data.map (fun c => if c = ' ' then '_' else c.toLower)).asString ++ ".csv"

/-- The header line written by
`data_file.write_text('category,store,product_name,price,search_term,store_url\n')`. -/
def dataFileHeader : String := "category,store,product_name,price,search_term,store_url\n"

/-- The `add_product` function of the notebook, as a transformer of the
persisted file state.  The `keywords` parameter is accepted (the notebook
declares it with default `''`) and never used.  The call re-reads both
CSVs through pandas before appending, so previously stored cells pass
through `pdReadOverviewRow` / `pdReadMappingRow` before being written
back; the appended row itself is written from the in-memory Python
values, verbatim. -/
def add_product (fs : FileSystem) (name product_id category : String)
    (current_price unit_cost : ℚ) (keywords : String) :
    Except PipelineError FileSystem :=
  match (fs.overview.getD []).mapM pdReadOverviewRow with
  | none => .error .unicodeDecodeError
  | some oldRows =>
    match encodeStr name with
    | none => .error .unicodeEncodeError
    | some nameBytes =>
      let fname := dataFileName category
      .ok
      { overview := some (oldRows ++
          [⟨nameBytes, product_id, current_price, unit_cost⟩])
        mapping := some ((fs.mapping.getD []).map pdReadMappingRow ++
          [⟨name, product_id, fname⟩])
        dataFiles := fun k =>
          if fs.dataFiles fname = none ∧ k = fname then some dataFileHeader
          else fs.dataFiles k }

/-- The overview rows after a (possibly failed) `add_product` call:
`none` when the call raised. -/
def overviewAfter (r : Except PipelineError FileSystem) : Option (List OverviewRow) :=
  r.toOption.map (fun fs => fs.overview.getD [])

/-- The product ids recorded in the overview after a call. -/
def overviewIdsAfter (r : Except PipelineError FileSystem) : Option (List String) :=
  (overviewAfter r).map (List.map OverviewRow.productId)

/-- The unit costs recorded in the overview after a call. -/
def overviewCostsAfter (r : Except PipelineError FileSystem) : Option (List ℚ) :=
  (overviewAfter r).map (List.map OverviewRow.unitCost)

/-- The contents of one data file after a call (`none` when the call
raised; `some none` when the file still does not exist). -/
def dataFileAfter (r : Except PipelineError FileSystem) (k : String) :
    Option (Option String) :=
  r.toOption.map (fun fs => fs.dataFiles k)

/-- Reading the overview CSV back with `pd.read_csv(..., encoding='cp1252')`:
each stored name is decoded from cp1252 (`none` when some byte is
undefined) and then passes pandas' per-cell NA conversion, yielding NaN
or the string.  Exact in the object-dtype regime; the whole-column
convertible regime is excluded by hypothesis where it matters. -/
def readCatalogNames (fs : FileSystem) : Option (List PdName) :=
  (fs.overview.getD []).mapM (fun row => (decodeStr row.nameBytes).map pdCell)

/-- Product-name cells read back from the overview CSV after a call. -/
def overviewNamesAfter (r : Except PipelineError FileSystem) : Option (List PdName) :=
  r.toOption.bind readCatalogNames

/-- A file system in which no file exists yet. -/
def emptyFS : FileSystem := ⟨none, none, fun _ => none⟩

example : dataFileName "Sunglasses" = "product_data/sunglasses.csv" := by decide

example :
    overviewNamesAfter (add_product emptyFS "Demo Sunglasses" "SG999" "Sunglasses"
      49 20 "demo, sunglasses") = some [PdName.str "Demo Sunglasses"] := by decide

example :
    add_product emptyFS "ā" "SG999" "Sunglasses" 49 20 "" =
      .error .unicodeEncodeError := by rfl

example :
    overviewNamesAfter (add_product emptyFS "NA" "SG999" "Sunglasses" 49 20 "") =
      some [PdName.na] := by decide

/-! ## Competitor Price Ingestor (spec §4.2, §6, §7)

The ingestor module invoked by the notebook is not part of the visible
source; it is modelled from the specification: `loadObservations(category)`
returns the empty sequence when the category has no data file yet, parses
the tabular {category, store, product_name, price, search_term, store_url}
file otherwise, and fails with `FormatError` when the file is malformed.
A batch over several categories computes each category's outcome from that
category's file alone. -/

/-- A parsed competitor observation record. -/
structure CompetitorObservation where
  category : String
  store : String
  productName : String
  price : ℚ
  searchTerm : String
  storeUrl : String
  deriving DecidableEq, Repr

/-- Modelled from the spec: `FormatError` — a malformed tabular file
(spec §7), fatal for that file only. -/
inductive LoadError where
  | formatError
  deriving DecidableEq, Repr

/-- Split a character list at every occurrence of `sep`. -/
def splitOnChar (sep : Char) : List Char → List (List Char)
  | [] => [[]]
  | c :: cs =>
    if c = sep then [] :: splitOnChar sep cs
    else match splitOnChar sep cs with
      | [] => [[c]]
      | g :: gs => (c :: g) :: gs

/-- The numeric value of a decimal digit. -/
def digitVal (c : Char) : Option Nat :=
  if '0' ≤ c ∧ c ≤ '9' then some (c.toNat - 48) else none

/-- Parse a non-empty all-digit character list as a natural number. -/
def parseDigits (cs : List Char) : Option Nat :=
  match cs with
  | [] => none
  | _ => cs.foldlM (fun acc c => (digitVal c).map (fun d => acc * 10 + d)) 0

/-- Split at the first dot, if any. -/
def splitDot : List Char → List Char × Option (List Char)
  | [] => ([], none)
  | c :: cs =>
    if c = '.' then ([], some cs)
    else
      let r := splitDot cs
      (c :: r.1, r.2)

/-- Parse an unsigned decimal numeral (`"45"`, `"49.99"`) as a rational. -/
def parseUnsigned (cs : List Char) : Option ℚ :=
  match splitDot cs with
  | (w, none) => (parseDigits w).map (fun n => (n : ℚ))
  | (w, some f) =>
    match parseDigits w, parseDigits f with
    | some a, some b => some ((a : ℚ) + (b : ℚ) / (10 : ℚ) ^ f.length)
    | _, _ => none

/-- Parse a price cell, allowing a leading minus sign. -/
def parsePrice (cs : List Char) : Option ℚ :=
  match cs with
  | '-' :: rest => (parseUnsigned rest).map Neg.neg
  | _ => parseUnsigned cs

/-- The header cells of a category data file. -/
def headerFields : List String :=
  ["category", "store", "product_name", "price", "search_term", "store_url"]

/-- Modelled from the spec: parse one data row; a row without exactly six
cells, or whose price cell is not numeric, is malformed. -/
def parseRow (cells : List (List Char)) : Except LoadError CompetitorObservation :=
  match cells with
  | [cat, st, pname, pr, term, url] =>
    match parsePrice pr with
    | some p => .ok ⟨cat.asString, st.asString, pname.asString, p, term.asString, url.asString⟩
    | none => .error .formatError
  | _ => .error .formatError

/-- Modelled from the spec: `loadObservations(category)` over the
category's data file contents (`none` when the file does not exist).  A
missing file yields the empty sequence; an existing file must start with
the standard header and parse row by row, else `FormatError`.  Trailing
empty lines are ignored. -/
def loadObservations (file : Option String) :
    Except LoadError (List CompetitorObservation) :=
  match file with
  | none => .ok []
  | some content =>
    match splitOnChar '\n' content.data with
    | [] => .error .formatError
    | header :: rest =>
      if (splitOnChar ',' header).map List.asString = headerFields then
        (rest.filter (fun l => !l.isEmpty)).mapM
          (fun l => parseRow (splitOnChar ',' l))
      else .error .formatError

/-- Modelled from the spec: a batch run loads every category's
observations, each from its own data file. -/
def processCategories (files : String → Option String) (cats : List String) :
    List (String × Except LoadError (List CompetitorObservation)) :=
  cats.map (fun c => (c, loadObservations (files c)))

example : loadObservations (some dataFileHeader) = .ok [] := by rfl

example :
    loadObservations (some (dataFileHeader ++ "Sunglasses,StoreA,Cool Shades,notanumber,shades,http://a\n")) =
      .error .formatError := by rfl

example :
    loadObservations (some (dataFileHeader ++ "Sunglasses,StoreA,Cool Shades,45,shades,http://a\n")) =
      .ok [⟨"Sunglasses", "StoreA", "Cool Shades", 45, "shades", "http://a"⟩] := by rfl

/-! ## Helper lemmas -/

/-- Round-half-to-even never moves a value down by more than one half. -/
theorem roundHalfToEvenInt_ge (q : ℚ) : q - 1/2 ≤ (roundHalfToEvenInt q : ℚ) := by
  have h1 : ((⌊q⌋ : ℤ) : ℚ) ≤ q := Int.floor_le q
  have h2 : q < ((⌊q⌋ : ℤ) : ℚ) + 1 := Int.lt_floor_add_one q
  unfold roundHalfToEvenInt
  split_ifs with ha hb hc <;> push_cast <;> linarith

/-- Rounding to cents moves a value down by at most half a cent. -/
theorem round2_ge (x : ℚ) : x - 1/200 ≤ round2 x := by
  have h := roundHalfToEvenInt_ge (100 * x)
  unfold round2
  rw [le_div_iff₀ (by norm_num : (0:ℚ) < 100)]
  linarith

/-- On an empty valid-observation set, `recommend` falls back to the
current price, else to cost times the default markup. -/
theorem recommend_empty (cfg : OptimizerConfig) (c : ℚ) (cp : Option ℚ) (obs : List ℚ)
    (h : filterObservations cfg c obs = []) :
    recommend cfg c cp obs =
      match cp with
      | some p => ⟨round2 p, "low"⟩
      | none => ⟨round2 (c * cfg.defaultMarkup), "low"⟩ := by
  simp [recommend, h]

/-- On a non-empty valid-observation set, `recommend` returns the clamped
median, with confidence decided by the valid-observation count. -/
theorem recommend_nonempty (cfg : OptimizerConfig) (c : ℚ) (cp : Option ℚ) (obs : List ℚ)
    (h : filterObservations cfg c obs ≠ []) :
    recommend cfg c cp obs =
      ⟨round2 (clamp (median (filterObservations cfg c obs))
          (c * (1 + cfg.minMargin)) (c * cfg.maxMarkup)),
        if 3 ≤ (filterObservations cfg c obs).length then "high" else "medium"⟩ := by
  have hb : (filterObservations cfg c obs).isEmpty = false := by
    simpa [List.isEmpty_iff] using h
  simp [recommend, hb]

/-! ## Claims -/

/-- C1 (counterexample): under the default policy, a product with unit
cost 20, a current price of 10 and no competitor observations is
recommended its current price 10, which is below
`cost × (1 + minMargin) = 22`; the claimed unconditional floor fails on
the empty observation set. -/
theorem recommend_below_floor_on_current_price :
    recommend defaultConfig 20 (some 10) [] = ⟨10, "low"⟩ ∧
    ¬ ((20 : ℚ) * (1 + defaultConfig.minMargin) ≤ (recommend defaultConfig 20 (some 10) []).price) := by
  have h : recommend defaultConfig 20 (some 10) [] = ⟨10, "low"⟩ := by
    norm_num [recommend, filterObservations, round2, roundHalfToEvenInt]
  refine ⟨h, ?_⟩
  rw [h]
  norm_num [defaultConfig]

/-- C1 (amended): under the default policy, whenever at least one valid
observation remains or no current price is present, the recommended price
is at least `cost × (1 + minMargin)` up to the half-cent lost to
round-half-to-even; with zero valid observations and a current price
present, the optimizer instead returns the current price, which may lie
below that floor. -/
theorem recommend_price_floor (c : ℚ) (cp : Option ℚ) (obs : List ℚ)
    (hc : 0 < c)
    (h : filterObservations defaultConfig c obs ≠ [] ∨ cp = none) :
    c * (1 + defaultConfig.minMargin) - 1/200 ≤ (recommend defaultConfig c cp obs).price := by
  have hmm : defaultConfig.minMargin = 1/10 := rfl
  by_cases hv : filterObservations defaultConfig c obs = []
  · have hcp : cp = none := h.resolve_left (by simp [hv])
    subst hcp
    rw [recommend_empty defaultConfig c none obs hv]
    have hd : defaultConfig.defaultMarkup = 3/2 := rfl
    simp only []
    rw [hmm, hd]
    have h2 := round2_ge (c * (3/2))
    linarith
  · rw [recommend_nonempty defaultConfig c cp obs hv]
    have h2 := round2_ge (clamp (median (filterObservations defaultConfig c obs))
      (c * (1 + defaultConfig.minMargin)) (c * defaultConfig.maxMarkup))
    have h3 : c * (1 + defaultConfig.minMargin) ≤
        clamp (median (filterObservations defaultConfig c obs))
          (c * (1 + defaultConfig.minMargin)) (c * defaultConfig.maxMarkup) :=
      le_max_left _ _
    simp only []
    linarith

/-- C1 (witness): the floor holds concretely for cost 20 with no
observations and no current price. -/
theorem recommend_price_floor_witness :
    (0 : ℚ) < 20 ∧
    (20 : ℚ) * (1 + defaultConfig.minMargin) - 1/200 ≤ (recommend defaultConfig 20 none []).price :=
  ⟨by norm_num, recommend_price_floor 20 none [] (by norm_num) (Or.inr rfl)⟩

/-- C3: with zero valid observations the optimizer recommends the current
(whole-cent) price when one is present and `unit cost × default markup`
otherwise, with confidence "low" in both cases; concretely, cost 20 with
no current price and default markup 1.5 yields 30.00. -/
theorem recommend_no_valid_observations (c cp : ℚ) (obs : List ℚ)
    (hempty : filterObservations defaultConfig c obs = [])
    (hcents : round2 cp = cp) :
    recommend defaultConfig c (some cp) obs = ⟨cp, "low"⟩ ∧
    recommend defaultConfig c none obs = ⟨round2 (c * defaultConfig.defaultMarkup), "low"⟩ ∧
    recommend defaultConfig 20 none [] = ⟨30, "low"⟩ := by
  refine ⟨?_, ?_, ?_⟩
  · rw [recommend_empty defaultConfig c (some cp) obs hempty]
    simp only [hcents]
  · rw [recommend_empty defaultConfig c none obs hempty]
  · norm_num [recommend, filterObservations, defaultConfig, round2, roundHalfToEvenInt]

/-- C3 (witness): a product with cost 20, current price 49 and no
observations keeps its current price with confidence "low". -/
theorem recommend_no_valid_observations_witness :
    recommend defaultConfig 20 (some 49) [] = ⟨49, "low"⟩ ∧
    recommend defaultConfig 20 none [] = ⟨round2 (20 * defaultConfig.defaultMarkup), "low"⟩ ∧
    recommend defaultConfig 20 none [] = ⟨30, "low"⟩ :=
  recommend_no_valid_observations 20 49 [] rfl
    (by norm_num [round2, roundHalfToEvenInt])

/-- C4: with at least one valid observation the recommended price is the
median of the valid observations clamped to
`[cost × (1 + minMargin), cost × maxMarkup]` (rounded to cents), with
confidence "high" for at least three valid observations and "medium"
otherwise; concretely, cost 20 with observations [45, 50, 55] yields
50.00 with confidence "high". -/
theorem recommend_with_valid_observations (c : ℚ) (cp : Option ℚ) (obs : List ℚ)
    (h : filterObservations defaultConfig c obs ≠ []) :
    recommend defaultConfig c cp obs =
      ⟨round2 (clamp (median (filterObservations defaultConfig c obs))
          (c * (1 + 1/10)) (c * 3)),
        if 3 ≤ (filterObservations defaultConfig c obs).length then "high" else "medium"⟩ ∧
    recommend defaultConfig 20 (some 49) [45, 50, 55] = ⟨50, "high"⟩ := by
  constructor
  · rw [recommend_nonempty defaultConfig c cp obs h]
    rfl
  · norm_num [recommend, filterObservations, defaultConfig, median, sortAsc, insertSorted,
      clamp, round2, roundHalfToEvenInt, List.filter]

/-- C4 (witness): the scenario product with cost 20, current price 49 and
observations [45, 50, 55]. -/
theorem recommend_with_valid_observations_witness :
    (recommend defaultConfig 20 (some 49) [45, 50, 55] =
      ⟨round2 (clamp (median (filterObservations defaultConfig 20 [45, 50, 55]))
          (20 * (1 + 1/10)) (20 * 3)),
        if 3 ≤ (filterObservations defaultConfig 20 [45, 50, 55]).length then "high" else "medium"⟩ ∧
    recommend defaultConfig 20 (some 49) [45, 50, 55] = ⟨50, "high"⟩) :=
  recommend_with_valid_observations 20 (some 49) [45, 50, 55]
    (by
      norm_num [filterObservations, defaultConfig, List.filter]
      exact List.cons_ne_nil _ _)

/-- C5: an observation survives the filter exactly when its price is
positive, at least `0.1 × unit cost` and at most `10 × unit cost`;
concretely, with unit cost 20 the observations priced 0 and 1000 are both
excluded and 50 is kept. -/
theorem filterObservations_excludes (c p : ℚ) (obs : List ℚ) :
    (p ∈ filterObservations defaultConfig c obs ↔
      p ∈ obs ∧ (0 < p ∧ (1/10) * c ≤ p ∧ p ≤ 10 * c)) ∧
    filterObservations defaultConfig 20 [0, 1000, 50] = [50] := by
  constructor
  · simp [filterObservations, List.mem_filter, defaultConfig]
  · norm_num [filterObservations, defaultConfig, List.filter]

/-! ## Concrete file states used as witnesses -/

/-- The overview row produced by the notebook's example call
`add_product('Demo Sunglasses','SG999','Sunglasses',49.0,20.0,...)`. -/
def demoRow : OverviewRow :=
  ⟨(encodeStr "Demo Sunglasses").getD [], "SG999", 49, 20⟩

/-- The file state after the notebook's example call: one catalog row,
one mapping row, and the freshly created sunglasses data file. -/
def fs1 : FileSystem :=
  ⟨some [demoRow],
    some [⟨"Demo Sunglasses", "SG999", "product_data/sunglasses.csv"⟩],
    fun k => if k = "product_data/sunglasses.csv" then some dataFileHeader else none⟩

/-- A file state whose overview and mapping already hold a product whose
name is the literal text `NA` (cp1252 bytes [78, 65]), with the
sunglasses data file present. -/
def fsNA : FileSystem :=
  ⟨some [⟨[78, 65], "SG998", 10, 5⟩],
    some [⟨"NA", "SG998", "product_data/sunglasses.csv"⟩],
    fun k => if k = "product_data/sunglasses.csv" then some dataFileHeader else none⟩

/-- A category data file whose data row has a non-numeric price cell. -/
def malformedFile : String :=
  dataFileHeader ++ "Sunglasses,StoreA,Cool Shades,notanumber,shades,http://a\n"

/-- A well-formed one-row category data file. -/
def goodFile : String :=
  dataFileHeader ++ "Scarves,StoreA,Silk Scarf,45,scarf,http://a\n"

/-- A data directory holding one malformed and one well-formed file. -/
def demoFiles : String → Option String := fun c =>
  if c = "Sunglasses" then some malformedFile
  else if c = "Scarves" then some goodFile
  else none

/-- Monadic map over `Option` distributes over list append. -/
theorem mapM_option_append {α β : Type} (f : α → Option β) :
    ∀ (l₁ : List α) (r₁ : List β), l₁.mapM f = some r₁ →
    ∀ (l₂ : List α), (l₁ ++ l₂).mapM f = (l₂.mapM f).map (fun r₂ => r₁ ++ r₂)
  | [], r₁, h, l₂ => by
    simp only [List.mapM_nil, Option.pure_def, Option.some.injEq] at h
    subst h
    simp [Option.map_eq_map]
  | a :: l₁, r₁, h, l₂ => by
    simp only [List.mapM_cons, Option.pure_def, Option.bind_eq_bind,
      Option.bind_eq_some, Option.some.injEq] at h
    obtain ⟨b, hb, rest, hrest, hr⟩ := h
    subst hr
    have ih := mapM_option_append f l₁ rest hrest l₂
    simp only [List.cons_append, List.mapM_cons, Option.pure_def, Option.bind_eq_bind, hb,
      Option.some_bind, ih]
    cases l₂.mapM f <;> rfl

/-- Rows whose cells are all plain read back verbatim through pandas. -/
theorem pdRead_of_plain : ∀ (rows : List OverviewRow),
    (∀ r ∈ rows, ∃ s, decodeStr r.nameBytes = some s ∧ plainCell s ∧ plainCell r.productId) →
    rows.mapM pdReadOverviewRow = some rows
  | [], _ => rfl
  | r :: rows, h => by
    obtain ⟨s, hs, hplain, hpid⟩ := h r (List.mem_cons_self r rows)
    have ih := pdRead_of_plain rows (fun x hx => h x (List.mem_cons_of_mem r hx))
    have h1 : pdReadOverviewRow r = some r := by
      simp only [pdReadOverviewRow, pdReadName, coerceCell, hs, Option.map_some',
        if_neg hplain.1, if_neg hpid.1]
    simp only [List.mapM_cons, Option.pure_def, Option.bind_eq_bind, h1,
      Option.some_bind, ih]

/-- Mapping rows whose cells are all plain read back verbatim. -/
theorem pdReadMapping_of_plain : ∀ (rows : List MappingRow),
    (∀ r ∈ rows, plainCell r.name ∧ plainCell r.productId ∧ plainCell r.dataFile) →
    rows.map pdReadMappingRow = rows
  | [], _ => rfl
  | r :: rows, h => by
    obtain ⟨hn, hp, hd⟩ := h r (List.mem_cons_self r rows)
    have ih := pdReadMapping_of_plain rows (fun x hx => h x (List.mem_cons_of_mem r hx))
    simp only [List.map_cons, ih, List.cons.injEq, and_true]
    simp only [pdReadMappingRow, coerceCell, if_neg hn.1, if_neg hp.1, if_neg hd.1]

/-- When the stored overview reads back as a list of name cells, pandas'
read-modify-write is stable: the coerced rows read back to the same
cells (an NA text has become the empty cell, which is again NaN; any
other text was kept verbatim). -/
theorem readCatalog_read_idempotent : ∀ (rows : List OverviewRow) (cells : List PdName),
    rows.mapM (fun r => (decodeStr r.nameBytes).map pdCell) = some cells →
    ∃ rows', rows.mapM pdReadOverviewRow = some rows' ∧
      rows'.mapM (fun r => (decodeStr r.nameBytes).map pdCell) = some cells
  | [], cells, h => ⟨[], rfl, h⟩
  | r :: rows, cells, h => by
    simp only [List.mapM_cons, Option.pure_def, Option.bind_eq_bind, Option.bind_eq_some,
      Option.some.injEq] at h
    obtain ⟨c, hc, rest, hrest, hcells⟩ := h
    obtain ⟨s, hs, hcs⟩ := Option.map_eq_some'.mp hc
    obtain ⟨rows', h1, h2⟩ := readCatalog_read_idempotent rows rest hrest
    subst hcells
    subst hcs
    by_cases hna : s ∈ naValues
    · refine ⟨⟨[], coerceCell r.productId, r.currentPrice, r.unitCost⟩ :: rows', ?_, ?_⟩
      · simp only [List.mapM_cons, pdReadOverviewRow, pdReadName, hs, Option.map_some',
          if_pos hna, Option.pure_def, Option.bind_eq_bind, h1, Option.some_bind]
      · simp only [List.mapM_cons, Option.pure_def, Option.bind_eq_bind, h2]
        have hempty : ((decodeStr ([] : List Nat)).map pdCell) = some PdName.na := by decide
        rw [hempty]
        simp only [Option.some_bind, Option.some.injEq, List.cons.injEq, and_true]
        rw [pdCell, if_pos hna]
    · refine ⟨⟨r.nameBytes, coerceCell r.productId, r.currentPrice, r.unitCost⟩ :: rows', ?_, ?_⟩
      · simp only [List.mapM_cons, pdReadOverviewRow, pdReadName, hs, Option.map_some',
          if_neg hna, Option.pure_def, Option.bind_eq_bind, h1, Option.some_bind]
      · simp only [List.mapM_cons, Option.pure_def, Option.bind_eq_bind, h2, hs,
          Option.map_some', Option.some_bind]

/-- All cells of the notebook's own example state `fs1` are plain. -/
theorem fs1_plain : plainState fs1 := by
  constructor
  · intro r hr
    simp only [fs1, Option.getD_some, List.mem_singleton] at hr
    subst hr
    exact ⟨"Demo Sunglasses", by decide, ⟨by decide, by decide⟩, by decide, by decide⟩
  · intro r hr
    simp only [fs1, Option.getD_some, List.mem_singleton] at hr
    subst hr
    exact ⟨⟨by decide, by decide⟩, ⟨by decide, by decide⟩, by decide, by decide⟩

/-- C9: the `keywords` argument of `add_product` has no effect whatsoever
on the resulting overview CSV, mapping CSV, or category data files: two
calls differing only in `keywords` produce identical outcomes. -/
theorem add_product_ignores_keywords (fs : FileSystem) (name pid cat : String)
    (cp uc : ℚ) (kw kw' : String) :
    add_product fs name pid cat cp uc kw = add_product fs name pid cat cp uc kw' := rfl

/-- C6: `loadObservations` returns the empty sequence (without raising)
when the category has no data file; an existing but malformed file yields
`FormatError`; and a batch computes every category's outcome from its own
file, so one category's `FormatError` leaves the other categories'
results intact. -/
theorem loadObservations_missing_and_malformed (files : String → Option String)
    (cat : String) (cats : List String)
    (hmem : cat ∈ cats) (hnofile : files cat = none) :
    loadObservations (files cat) = .ok [] ∧
    loadObservations (some malformedFile) = .error .formatError ∧
    (cat, loadObservations (files cat)) ∈ processCategories files cats ∧
    processCategories demoFiles ["Sunglasses", "Scarves"] =
      [("Sunglasses", .error .formatError),
       ("Scarves", .ok [⟨"Scarves", "StoreA", "Silk Scarf", 45, "scarf", "http://a"⟩])] := by
  refine ⟨by rw [hnofile]; rfl, rfl, ?_, rfl⟩
  simp only [processCategories, List.mem_map]
  exact ⟨cat, hmem, rfl⟩

/-- C6 (witness): the category "Hats" has no data file; its load returns
empty while the sibling categories' batch entries are unaffected by the
malformed sunglasses file. -/
theorem loadObservations_missing_and_malformed_witness :
    loadObservations (demoFiles "Hats") = .ok [] ∧
    loadObservations (some malformedFile) = .error .formatError ∧
    ("Hats", loadObservations (demoFiles "Hats")) ∈ processCategories demoFiles ["Hats"] ∧
    processCategories demoFiles ["Sunglasses", "Scarves"] =
      [("Sunglasses", .error .formatError),
       ("Scarves", .ok [⟨"Scarves", "StoreA", "Silk Scarf", 45, "scarf", "http://a"⟩])] :=
  loadObservations_missing_and_malformed demoFiles "Hats" ["Hats"]
    (by simp) rfl

end Pricing
